import Mathlib

/-!
Shallow embedding of the gshotsheet2py repository (src/gshotsheet2py.py and
src/metadata.py): the cached lookup engine (`Shotsheet.get`, `Metadata.get`),
the write engine (`Shotsheet.write`, `Metadata.write`), the snapshot cache
(`Shotsheet.update`), the connection retry loop (`_get_sheet_instance`) and
the filter branches of `Shotsheet.get_all`.

Modelling conventions:
* Cell values read from a sheet are strings; `gspread`'s empty cell and
  Python's `None` are both the empty string `""`.
* Clean record sets (`self.records` / `self.records_df`) are lists of rows,
  each row carrying its integer `run_number` and an association list of
  fields.  The remote source is trusted to hold at most one row per
  `run_number` (the spec declares a duplicate an undefined behaviour), so
  `to_dict()` on the pandas index is modelled by the first matching row.
* A Python function that lets an exception propagate to its caller is
  modelled with an `Option` result, `none` standing for the escaping
  exception.
-/

/-- Prefix test on character lists. -/
def prefixChars : List Char → List Char → Bool
  | [], _ => true
  | _ :: _, [] => false
  | p :: ps, c :: cs => p == c && prefixChars ps cs

/-- Substring test on character lists: the pattern is a prefix of some
suffix. -/
def containsSubAux (pat : List Char) : List Char → Bool
  | [] => prefixChars pat []
  | c :: cs => prefixChars pat (c :: cs) || containsSubAux pat cs

/-- Boolean substring test, modelling Python's `pat in s`. -/
def containsSub (s pat : String) : Bool := containsSubAux pat.data s.data

/-- One row of a clean record set: its `run_number` and the remaining
field/value pairs, as produced by `get_all_records`. -/
structure Rec where
  run : Int
  fields : List (String × String)
deriving DecidableEq

/-- `df.set_index('run_number')[key].to_dict()[r]`, wrapped in the
`try/except` of the fallback loop: a missing column, or a missing run, gives
the empty string (`this = ''`). -/
def lookupField (df : List Rec) (key : String) (r : Int) : String :=
  match df.find? (fun rec => rec.run == r) with
  | some rec => (rec.fields.lookup key).getD ""
  | none => ""

/-- The `while runNr > -10` loop of `Shotsheet.get`: the fuel is
`(runNr + 10).toNat`, which is positive exactly when the guard
`runNr > -10` holds, and decreases by one as `runNr` does. -/
def getWalk (df : List Rec) (key : String) : Nat → Int → Option String
  | 0, _ => none
  | fuel + 1, r =>
    let v := lookupField df key r
    if v != "" || containsSub key "comment" then some v
    else getWalk df key fuel (r - 1)

/-- `Shotsheet.get` of src/gshotsheet2py.py, after `update`: membership test
on the run column, then the fallback loop.  Run missing raises `ValueError`,
whose handler only prints, so the function returns `None`; an exhausted loop
raises the local `KeyError`, whose handler returns `"n/a"`. -/
def Shotsheet.get (df : List Rec) (key : String) (run : Int) : Option String :=
  if df.any (fun rec => rec.run == run) then
    match getWalk df key (run + 10).toNat run with
    | some v => some v
    | none => some "n/a"
  else none

/-- The `while runNr > -10` loop of `Metadata.get`: same loop without the
comment special case. -/
def metaWalk (df : List Rec) (key : String) : Nat → Int → Option String
  | 0, _ => none
  | fuel + 1, r =>
    let v := lookupField df key r
    if v != "" then some v
    else metaWalk df key fuel (r - 1)

/-- `df.set_index('run_number')["done"].to_dict()[run]`: `none` when the run
row or the `done` column is absent (the `KeyError` case). -/
def doneValue (df : List Rec) (run : Int) : Option String :=
  (df.find? (fun rec => rec.run == run)).bind (fun rec => rec.fields.lookup "done")

/-- `Metadata.get` of src/metadata.py: the guard
`if df.set_index('run_number')["done"].to_dict()[runNr] == '': raise` sends
both a missing run and an empty `done` marker to the bare
`except Exception` handler, which prints and returns `None`. -/
def Metadata.get (df : List Rec) (key : String) (run : Int) : Option String :=
  match doneValue df run with
  | none => none
  | some d =>
    if d == "" then none
    else
      match metaWalk df key (run + 10).toNat run with
      | some v => some v
      | none => some "n/a"

/-- The list of candidate runs the loop actually visits, starting at `r` and
stopping when the guard `runNr > -10` fails. -/
def fallbackWindow (r : Int) : List Int :=
  (List.range (r + 10).toNat).map (fun i : Nat => r - (i : Int))

/-- Amended spec of the fallback lookup: the first non-empty value among the
candidates `r, r - 1, ...` while the candidate exceeds `-10`, and `"n/a"`
when every candidate is empty. -/
def fallbackLookup (df : List Rec) (key : String) (r : Int) : String :=
  match (fallbackWindow r).find? (fun q => lookupField df key q != "") with
  | some q => lookupField df key q
  | none => "n/a"

/-- The claim's own window, `run` down to `run - 10` inclusive (11
candidates), used to compare the claimed behaviour with the code's. -/
def claimWindow (r : Int) : List Int :=
  (List.range 11).map (fun i : Nat => r - (i : Int))

/-- `get_value` as the claim words it: fall back at most 10 runs below the
requested one. -/
def get_value_claimed (df : List Rec) (key : String) (run : Int) : Option String :=
  if df.any (fun rec => rec.run == run) then
    match (claimWindow run).find? (fun q => lookupField df key q != "") with
    | some q => some (lookupField df key q)
    | none => some "n/a"
  else none

theorem getWalk_eq_find (df : List Rec) (key : String)
    (hkey : containsSub key "comment" = false) :
    ∀ (fuel : Nat) (r : Int),
      getWalk df key fuel r =
        (((List.range fuel).map (fun i : Nat => r - (i : Int))).find?
          (fun q => lookupField df key q != "")).map (fun q => lookupField df key q) := by
  intro fuel
  induction fuel with
  | zero => intro r; simp [getWalk]
  | succ n ih =>
    intro r
    rw [List.range_succ_eq_map, getWalk]
    simp only [hkey, Bool.or_false, List.map_cons, List.map_map, Nat.cast_zero, sub_zero]
    have hmap : (List.range n).map ((fun i : Nat => r - (i : Int)) ∘ Nat.succ)
        = (List.range n).map (fun i : Nat => r - 1 - (i : Int)) := by
      apply List.map_congr_left
      intro a _
      simp only [Function.comp_apply]
      push_cast
      ring
    rw [hmap]
    cases hv : (lookupField df key r != "") with
    | true =>
      rw [if_pos rfl, List.find?_cons_of_pos _ (by simpa using hv)]
      simp
    | false =>
      rw [if_neg (by simp), List.find?_cons_of_neg _ (by simpa using hv)]
      rw [ih (r - 1)]

/-- C1 (amended): for a `run_number` present in the clean record set and a
field not containing "comment", `Shotsheet.get` returns the first non-empty
value walking backward from `run_number` while the candidate exceeds `-10`
(an absolute lower bound, not `run_number - 10`), and `"n/a"` when every
candidate in that walk is empty; in particular a non-empty value stored at
the exact run is returned as the first candidate. -/
theorem shotsheet_get_fallback (df : List Rec) (key : String) (run : Int)
    (hrun : df.any (fun rec => rec.run == run) = true)
    (hkey : containsSub key "comment" = false) :
    Shotsheet.get df key run = some (fallbackLookup df key run) := by
  have hw : fallbackWindow run
      = (List.range (run + 10).toNat).map (fun i : Nat => run - (i : Int)) := rfl
  unfold Shotsheet.get
  rw [hrun, if_pos rfl, getWalk_eq_find df key hkey, ← hw]
  cases h : (fallbackWindow run).find? (fun q => lookupField df key q != "") with
  | some q => simp [fallbackLookup, h]
  | none => simp [fallbackLookup, h]

/-- Clean record set on which the claimed 11-run window and the code's
actual walk disagree: the value inherited for run 20 comes from run 0. -/
def c1df : List Rec := [⟨0, [("temp", "5")]⟩, ⟨20, [("temp", "")]⟩]

/-- C1 counterexample: at run 20 with an empty cell, the code walks all the
way down to run 0 (further than `run_number - 10`) and returns `"5"`, while
the claimed 11-candidate window is exhausted and would give `"n/a"`. -/
theorem shotsheet_get_window_cex :
    Shotsheet.get c1df "temp" 20 = some "5"
      ∧ get_value_claimed c1df "temp" 20 = some "n/a" := by
  constructor
  · decide
  · decide

/-- C1 witness: the amended theorem applied at a concrete record set. -/
theorem shotsheet_get_fallback_witness :
    Shotsheet.get c1df "temp" 20 = some (fallbackLookup c1df "temp" 20) :=
  shotsheet_get_fallback c1df "temp" 20 (by decide) (by decide)

/-- C3 (amended): for a field containing "comment" and a present run, the
loop never falls back: when `run_number > -10` the first iteration returns
the stored value unchanged (even the empty string); when
`run_number ≤ -10` the loop body never runs and the sentinel `"n/a"` is
returned without consulting the stored value. -/
theorem shotsheet_get_comment_exact (df : List Rec) (key : String) (run : Int)
    (hrun : df.any (fun rec => rec.run == run) = true)
    (hkey : containsSub key "comment" = true) :
    (run > -10 → Shotsheet.get df key run = some (lookupField df key run))
      ∧ (run ≤ -10 → Shotsheet.get df key run = some "n/a") := by
  unfold Shotsheet.get
  rw [hrun, if_pos rfl]
  constructor
  · intro hgt
    have h0 : (run + 10).toNat ≠ 0 := by omega
    obtain ⟨n, hn⟩ := Nat.exists_eq_succ_of_ne_zero h0
    rw [hn, getWalk]
    simp [hkey]
  · intro hle
    have h0 : (run + 10).toNat = 0 := by omega
    rw [h0, getWalk]

/-- A comment stored at run `-10`: present in the clean set, but below the
loop's absolute guard. -/
def c3df : List Rec := [⟨-10, [("comment", "hello")]⟩]

/-- C3 counterexample: the comment value `"hello"` is stored at the exact
requested run `-10`, yet `Shotsheet.get` returns the sentinel `"n/a"`
because the loop guard `runNr > -10` fails before the first lookup. -/
theorem shotsheet_get_comment_cex :
    Shotsheet.get c3df "comment" (-10) = some "n/a"
      ∧ lookupField c3df "comment" (-10) = "hello" := by
  constructor
  · decide
  · decide

/-- A present run with an empty comment cell, above the loop guard. -/
def c3df2 : List Rec := [⟨7, [("comment", "")]⟩]

/-- C3 witness: an empty comment at the exact run is returned as-is. -/
theorem shotsheet_get_comment_witness :
    Shotsheet.get c3df2 "comment" 7 = some (lookupField c3df2 "comment" 7) :=
  (shotsheet_get_comment_exact c3df2 "comment" 7 (by decide) (by decide)).1 (by decide)

/-- C4 (amended): a `run_number` absent from a non-empty clean record set
makes `Shotsheet.get` take the `ValueError` path, whose handler only prints
the warning, so the call returns no value (`None`), not the sentinel
`"n/a"`. -/
theorem shotsheet_get_run_missing (df : List Rec) (key : String) (run : Int)
    (_hne : df ≠ [])
    (h : df.any (fun rec => rec.run == run) = false) :
    Shotsheet.get df key run = none := by
  unfold Shotsheet.get
  rw [h]
  simp

/-- A clean record set without run 5. -/
def c4df : List Rec := [⟨1, [("temp", "a")]⟩]

/-- C4 counterexample: a missing run returns `None`, which is not the
sentinel `"n/a"` the claim promises to the caller. -/
theorem shotsheet_get_missing_cex :
    Shotsheet.get c4df "temp" 5 = none
      ∧ (none : Option String) ≠ some "n/a" := by
  constructor
  · decide
  · decide

/-- C4 witness: the amended theorem applied at a concrete record set. -/
theorem shotsheet_get_run_missing_witness :
    Shotsheet.get c4df "temp" 7 = none :=
  shotsheet_get_run_missing c4df "temp" 7 (by decide) (by decide)

/-- C10: in the metadata variant, a present run whose `done` field holds the
empty string trips the guard `if ... ["done"].to_dict()[runNr] == '': raise`,
so `Metadata.get` returns `None` for every requested field, without any
lookup or fallback. -/
theorem metadata_get_done_empty (df : List Rec) (key : String) (run : Int)
    (h : doneValue df run = some "") :
    Metadata.get df key run = none := by
  unfold Metadata.get
  rw [h]
  simp

/-- A metadata row whose `done` marker is empty while the requested field
holds a non-empty value. -/
def c10df : List Rec := [⟨5, [("done", ""), ("temp", "42")]⟩]

/-- C10 witness: the field `temp` holds `"42"` for run 5, yet `Metadata.get`
returns `None` because `done` is empty. -/
theorem metadata_get_done_empty_witness :
    Metadata.get c10df "temp" 5 = none ∧ lookupField c10df "temp" 5 = "42" :=
  ⟨metadata_get_done_empty c10df "temp" 5 (by decide), by decide⟩

/-- One raw record as returned by `get_all_records`: field/value pairs
(the unit row included for the source sheet). -/
abbrev RawRow := List (String × String)

/-- The clean partition built inside `update`: keep the records whose
`run_number` entry is non-empty (`if rec["run_number"] != ""`). -/
def cleanRows (rows : List RawRow) : List RawRow :=
  rows.filter (fun r => (r.lookup "run_number").getD "" != "")

/-- The four record sets `update` stores: `_records_raw`,
`_records_python_raw`, `records`, `records_python`. -/
structure Snap where
  raw : List RawRow
  rawWrite : List RawRow
  clean : List RawRow
  cleanWrite : List RawRow
deriving DecidableEq

/-- Building a snapshot from the two fetched record lists, as `update`
does after a successful fetch. -/
def mkSnap (d dw : List RawRow) : Snap := ⟨d, dw, cleanRows d, cleanRows dw⟩

/-- Cache state of a `Shotsheet` object: `_lastUpdate` and the snapshot
(`none` before the first successful fetch). -/
structure ShotState where
  lastUpdate : Int
  snap : Option Snap
deriving DecidableEq

/-- What one `update` call did: the resulting state, whether a remote fetch
happened, whether the "Using cached data" warning was printed, and whether
the worksheet handles were reacquired via `_get_sheet_instance`. -/
structure UpdateOutcome where
  state : ShotState
  fetched : Bool
  warned : Bool
  reacquired : Bool
deriving DecidableEq

/-- `Shotsheet.update` of src/gshotsheet2py.py.  `now` stands for
`time.time()` (the call is modelled as instantaneous, so the timestamp
written after the fetch equals the one compared before it); `fetch1` is the
outcome of the `get_all_records` pair on the current handles, `fetch2` the
outcome of the retry performed after `_get_sheet_instance()` inside the
`except` branch (`none` = the attempt raised).  A `none` result is the
exception escaping `update`. -/
def Shotsheet.update (now cacheTime : Int) (verbose : Bool)
    (fetch1 fetch2 : Option (List RawRow × List RawRow))
    (st : ShotState) : Option UpdateOutcome :=
  if now - st.lastUpdate > cacheTime then
    match fetch1 with
    | some (d, dw) => some ⟨⟨now, some (mkSnap d dw)⟩, true, false, false⟩
    | none =>
      match fetch2 with
      | some (d, dw) => some ⟨⟨now, some (mkSnap d dw)⟩, true, false, true⟩
      | none => none
  else some ⟨st, false, verbose, false⟩

/-- C5: a fetch is performed iff `now - _lastUpdate > _cache_time`; a second
`update` within the window reuses the stored snapshot unchanged and prints
the verbosity-gated cache warning, and an `update` after the window elapses
fetches again and resets the timestamp to the new time. -/
theorem update_cache_policy (now1 now2 cacheTime : Int) (v1 v2 : Bool)
    (d1 dw1 d2 dw2 : List RawRow) (f2 f2' : Option (List RawRow × List RawRow))
    (st0 : ShotState)
    (hdue : now1 - st0.lastUpdate > cacheTime) :
    (∀ (now : Int) (v : Bool) (g1 g2 : Option (List RawRow × List RawRow))
       (st : ShotState) (o : UpdateOutcome),
       Shotsheet.update now cacheTime v g1 g2 st = some o →
       (o.fetched = true ↔ now - st.lastUpdate > cacheTime))
    ∧ Shotsheet.update now1 cacheTime v1 (some (d1, dw1)) f2 st0
        = some ⟨⟨now1, some (mkSnap d1 dw1)⟩, true, false, false⟩
    ∧ (now2 - now1 ≤ cacheTime →
        Shotsheet.update now2 cacheTime v2 (some (d2, dw2)) f2' ⟨now1, some (mkSnap d1 dw1)⟩
          = some ⟨⟨now1, some (mkSnap d1 dw1)⟩, false, v2, false⟩)
    ∧ (now2 - now1 > cacheTime →
        Shotsheet.update now2 cacheTime v2 (some (d2, dw2)) f2' ⟨now1, some (mkSnap d1 dw1)⟩
          = some ⟨⟨now2, some (mkSnap d2 dw2)⟩, true, false, false⟩) := by
  refine ⟨?_, ?_, ?_, ?_⟩
  · intro now v g1 g2 st o h
    unfold Shotsheet.update at h
    by_cases hc : now - st.lastUpdate > cacheTime
    · rw [if_pos hc] at h
      cases g1 with
      | some p =>
        cases p with
        | mk d dw =>
          simp only [Option.some.injEq] at h
          subst h
          simpa using hc
      | none =>
        cases g2 with
        | some p =>
          cases p with
          | mk d dw =>
            simp only [Option.some.injEq] at h
            subst h
            simpa using hc
        | none => simp at h
    · rw [if_neg hc] at h
      simp only [Option.some.injEq] at h
      subst h
      simpa using hc
  · unfold Shotsheet.update
    rw [if_pos hdue]
  · intro hwin
    unfold Shotsheet.update
    rw [if_neg (by simpa using not_lt.mpr hwin)]
  · intro hlate
    unfold Shotsheet.update
    rw [if_pos (by simpa using hlate)]

/-- C5 witness: a cache window of 10 starting from timestamp 0; the fetch at
time 11 is due, and the call at time 15 serves the cache with the warning. -/
theorem update_cache_policy_witness :
    Shotsheet.update 15 10 true (some ([[("run_number", "2")]], [])) none
        ⟨11, some (mkSnap [[("run_number", "1")]] [])⟩
      = some ⟨⟨11, some (mkSnap [[("run_number", "1")]] [])⟩, false, true, false⟩ :=
  (update_cache_policy 11 15 10 true true [[("run_number", "1")]] [] [[("run_number", "2")]] []
      none none ⟨0, none⟩ (by decide)).2.2.1 (by decide)

/-- C6 (amended): when the due fetch fails, `update` reacquires the handles
once via `_get_sheet_instance` and retries the fetch once; if the retry also
fails, the exception escapes `update` -- the call fails even when a
previously fetched snapshot exists in memory, rather than serving it. -/
theorem update_retry_behavior (now cacheTime : Int) (v : Bool) (st : ShotState)
    (d dw : List RawRow)
    (hdue : now - st.lastUpdate > cacheTime) :
    Shotsheet.update now cacheTime v none (some (d, dw)) st
        = some ⟨⟨now, some (mkSnap d dw)⟩, true, false, true⟩
    ∧ Shotsheet.update now cacheTime v none none st = none := by
  constructor
  · unfold Shotsheet.update
    rw [if_pos hdue]
  · unfold Shotsheet.update
    rw [if_pos hdue]

/-- A cache state already holding a previously fetched snapshot. -/
def c6st : ShotState := ⟨0, some (mkSnap [[("run_number", "1")]] [])⟩

/-- C6 counterexample: both the fetch and the post-reacquisition retry fail
while a prior snapshot exists; the claim says the refresh serves that
snapshot, but `update` propagates the exception (`none`). -/
theorem update_no_degraded_serve_cex :
    Shotsheet.update 100 10 true none none c6st = none ∧ c6st.snap ≠ none := by
  constructor
  · decide
  · decide

/-- C6 witness: the reacquire-and-retry path succeeds and stores the retried
fetch. -/
theorem update_retry_behavior_witness :
    Shotsheet.update 100 10 true none (some ([[("run_number", "3")]], [])) c6st
      = some ⟨⟨100, some (mkSnap [[("run_number", "3")]] [])⟩, true, false, true⟩ :=
  (update_retry_behavior 100 10 true c6st [[("run_number", "3")]] [] (by decide)).1

/-- The worksheet-handle fields of a `Shotsheet`/`Metadata` object:
`_sheet_instance` and `_writesheet_instance`. -/
structure ConnSt where
  sheetInst : Option Int
  writeInst : Option Int
deriving DecidableEq

/-- What `_get_sheet_instance` did: final handle state, returned value,
number of authorize+open+resolve attempts made, and total units slept
(`time.sleep(2)` after each failed attempt). -/
structure ConnOutcome where
  state : ConnSt
  result : Option Int
  attempts : Nat
  sleepUnits : Nat
deriving DecidableEq

/-- The `while retry_count < 5` body of `_get_sheet_instance`.  `auth k` is
the outcome of attempt `k` (authorize, open, and resolve both worksheets,
taken as one atomic step): `some (s, w)` yields the two handles, `none`
raises.  `hasWrite` is `self._writesheet != None`.  The fuel is
`5 - retry_count`. -/
def giLoop (auth : Nat → Option (Int × Int)) (hasWrite : Bool) :
    Nat → Nat → ConnSt → ConnOutcome
  | 0, _, st => ⟨st, none, 0, 0⟩
  | fuel + 1, k, st =>
    match auth k with
    | some (s, w) => ⟨⟨some s, if hasWrite then some w else st.writeInst⟩, some s, 1, 0⟩
    | none =>
      let o := giLoop auth hasWrite fuel (k + 1) st
      ⟨o.state, o.result, o.attempts + 1, o.sleepUnits + 2⟩

/-- `_get_sheet_instance`: up to 5 attempts starting at `retry_count = 0`;
falling off the loop returns Python `None`. -/
def getSheetInstance (auth : Nat → Option (Int × Int)) (hasWrite : Bool)
    (st : ConnSt) : ConnOutcome :=
  giLoop auth hasWrite 5 0 st

theorem giLoop_all_fail (auth : Nat → Option (Int × Int)) (hasWrite : Bool) :
    ∀ (fuel k : Nat) (st : ConnSt), (∀ j, j < fuel → auth (k + j) = none) →
      giLoop auth hasWrite fuel k st = ⟨st, none, fuel, 2 * fuel⟩ := by
  intro fuel
  induction fuel with
  | zero => intro k st _; rfl
  | succ n ih =>
    intro k st hfail
    have h0 : auth k = none := by simpa using hfail 0 (Nat.succ_pos n)
    rw [giLoop, h0]
    have hrec := ih (k + 1) st (fun j hj => by
      have := hfail (j + 1) (by omega)
      simpa [Nat.add_assoc, Nat.add_comm 1 j] using this)
    rw [hrec]
    simp
    omega

theorem giLoop_first_success (auth : Nat → Option (Int × Int)) (hasWrite : Bool) :
    ∀ (fuel i k : Nat) (st : ConnSt) (s w : Int), i < fuel →
      (∀ j, j < i → auth (k + j) = none) → auth (k + i) = some (s, w) →
      giLoop auth hasWrite fuel k st
        = ⟨⟨some s, if hasWrite then some w else st.writeInst⟩, some s, i + 1, 2 * i⟩ := by
  intro fuel
  induction fuel with
  | zero => intro i k st s w hi; omega
  | succ n ih =>
    intro i k st s w hi hfail hs
    cases i with
    | zero =>
      have h0 : auth k = some (s, w) := by simpa using hs
      rw [giLoop, h0]
    | succ m =>
      have h0 : auth k = none := by simpa using hfail 0 (Nat.succ_pos m)
      rw [giLoop, h0]
      have hrec := ih m (k + 1) st s w (by omega)
        (fun j hj => by
          have := hfail (j + 1) (by omega)
          simpa [Nat.add_assoc, Nat.add_comm 1 j] using this)
        (by
          have : k + 1 + m = k + (m + 1) := by omega
          rw [this]
          exact hs)
      rw [hrec]
      simp
      omega

/-- C9: `_get_sheet_instance` makes at most 5 authorize+open+resolve
attempts, sleeping 2 units after each failed one; after 5 consecutive
failures it returns Python `None` (10 units slept, no exception), and on the
first success at attempt `k` it returns the source handle, having stored the
write handle too (when a write sheet is configured), after `k` failures and
`2 * k` sleep units. -/
theorem sheet_instance_retry (auth : Nat → Option (Int × Int)) (hasWrite : Bool)
    (st : ConnSt) :
    ((∀ j, j < 5 → auth j = none) →
      getSheetInstance auth hasWrite st = ⟨st, none, 5, 10⟩)
    ∧ (∀ (k : Nat) (s w : Int), k < 5 → (∀ j, j < k → auth j = none) →
        auth k = some (s, w) →
        getSheetInstance auth hasWrite st
          = ⟨⟨some s, if hasWrite then some w else st.writeInst⟩, some s, k + 1, 2 * k⟩) := by
  constructor
  · intro hfail
    have h := giLoop_all_fail auth hasWrite 5 0 st (fun j hj => by simpa using hfail j hj)
    simpa [getSheetInstance] using h
  · intro k s w hk hfail hs
    have h := giLoop_first_success auth hasWrite 5 k 0 st s w hk
      (fun j hj => by simpa using hfail j hj) (by simpa using hs)
    simpa [getSheetInstance] using h

/-- Attempt oracle that fails twice and then succeeds with handles (7, 8). -/
def c9auth : Nat → Option (Int × Int) := fun j => if j < 2 then none else some (7, 8)

/-- C9 witness: with two failures before the first success,
`_get_sheet_instance` returns the source handle 7 after 3 attempts and 4
slept units, and stores the write handle 8. -/
theorem sheet_instance_retry_witness :
    getSheetInstance c9auth true ⟨none, none⟩ = ⟨⟨some 7, some 8⟩, some 7, 3, 4⟩ :=
  (sheet_instance_retry c9auth true ⟨none, none⟩).2 2 7 8 (by decide)
    (by decide) (by decide)

/-- A sheet cell value, as `get_all_records` delivers it: a string or a
number (numeric cells arrive as Python ints). -/
inductive Cell where
  | s (v : String)
  | n (v : Int)
deriving DecidableEq

/-- The raw dataframe `write` works on (`_records_python_raw` /
`_records_raw`): the column names and the rows, each row aligned with the
columns. -/
structure Frame where
  cols : List String
  rows : List (List Cell)
deriving DecidableEq

/-- The remote worksheet, addressed 1-based as `ws.cell(row, col)`;
an unset cell reads as the empty string (gspread returns `None`, and
`not cell_value` treats `None` and `''` alike). -/
abbrev Sheet := Int → Int → String

/-- `ws.update_cell(r, c, v)`. -/
def updCell (ws : Sheet) (r c : Int) (v : String) : Sheet :=
  fun p q => if p = r ∧ q = c then v else ws p q

/-- `np.where(df['run_number'] == run_number)[0][0]`: the first positional
row index whose `run_number` cell equals the run.  `none` covers every
failure the bare `except:` catches: the `run_number` column missing
(`KeyError`) or no matching row (`IndexError`). -/
def Frame.findRun (df : Frame) (run : Int) : Option Nat :=
  match df.cols.findIdx? (fun c => c == "run_number") with
  | none => none
  | some rc => df.rows.findIdx? (fun row => row.getD rc (Cell.s "") == Cell.n run)

/-- What a `write` call did: the resulting worksheet, the chronological
`update_cell` trace as `(row, col, value)` triples, whether the
"cell ... is not empty, skipping write" conflict was reported, and whether
the "Key does not exist" diagnostic was reported. -/
structure WriteResult where
  sheet : Sheet
  writes : List (Int × Int × String)
  conflict : Bool
  keyMissing : Bool

/-- The column-resolution half shared by `Shotsheet.write` and
`Metadata.write`: find the field's column and write the data cell unless it
is non-empty and `overwrite` is unset; on `KeyError`, append a new column
(header cell then data cell) when `new_key` is set, else report the missing
key.  `row` is the resolved 0-based row, `tr` the writes already issued by
row resolution. -/
def writeCol (ws : Sheet) (df : Frame) (key data : String) (row : Int)
    (tr : List (Int × Int × String)) (new_key overwrite : Bool) : WriteResult :=
  match df.cols.findIdx? (fun c => c == key) with
  | some c =>
    if ws (row + 2) ((c : Int) + 1) == "" || overwrite then
      ⟨updCell ws (row + 2) ((c : Int) + 1) data,
       tr ++ [(row + 2, (c : Int) + 1, data)], false, false⟩
    else ⟨ws, tr, true, false⟩
  | none =>
    if new_key then
      ⟨updCell (updCell ws 1 ((df.cols.length : Int) + 1) key)
         (row + 2) ((df.cols.length : Int) + 1) data,
       tr ++ [(1, (df.cols.length : Int) + 1, key),
              (row + 2, (df.cols.length : Int) + 1, data)], false, false⟩
    else ⟨ws, tr, false, true⟩

/-- `Shotsheet.write` of src/gshotsheet2py.py (the `python=True` sheet
selection, after `update`).  When the run is not found, the row index
becomes the run number itself and the `run_number` cell is written only if
empty or `overwrite`; a missing `run_number` column inside that handler
raises an uncaught `KeyError` (`none`). -/
def Shotsheet.write (ws : Sheet) (df : Frame) (key data : String) (run : Int)
    (new_key overwrite : Bool) : Option WriteResult :=
  match df.findRun run with
  | some i => some (writeCol ws df key data (i : Int) [] new_key overwrite)
  | none =>
    match df.cols.findIdx? (fun c => c == "run_number") with
    | none => none
    | some rc =>
      if ws (run + 2) ((rc : Int) + 1) == "" || overwrite then
        some (writeCol (updCell ws (run + 2) ((rc : Int) + 1) (toString run))
          df key data run [(run + 2, (rc : Int) + 1, toString run)] new_key overwrite)
      else some (writeCol ws df key data run [] new_key overwrite)

/-- `Metadata.write` of src/metadata.py: identical except that the
run-number cell in the row-creation path is written unconditionally
(`ws.update_cell(row+2, df.columns.get_loc("run_number")+1, str(run_number))`
with no emptiness check). -/
def Metadata.write (ws : Sheet) (df : Frame) (key data : String) (run : Int)
    (new_key overwrite : Bool) : Option WriteResult :=
  match df.findRun run with
  | some i => some (writeCol ws df key data (i : Int) [] new_key overwrite)
  | none =>
    match df.cols.findIdx? (fun c => c == "run_number") with
    | none => none
    | some rc =>
      some (writeCol (updCell ws (run + 2) ((rc : Int) + 1) (toString run))
        df key data run [(run + 2, (rc : Int) + 1, toString run)] new_key overwrite)

/-- C2 (amended, field-cell path): in both variants, a `write` whose field
column resolves to a cell already holding a non-empty value leaves the whole
worksheet untouched and reports the conflict when `overwrite` is unset, and
replaces the cell with the (stringified) value when `overwrite` is set. -/
theorem write_conflict_policy (ws : Sheet) (df : Frame) (key data : String) (run : Int)
    (i c : Nat) (nk : Bool)
    (hrow : df.findRun run = some i)
    (hcol : df.cols.findIdx? (fun s => s == key) = some c)
    (hne : ws ((i : Int) + 2) ((c : Int) + 1) ≠ "") :
    (Shotsheet.write ws df key data run nk false = some ⟨ws, [], true, false⟩
      ∧ Metadata.write ws df key data run nk false = some ⟨ws, [], true, false⟩)
    ∧ (Shotsheet.write ws df key data run nk true
        = some ⟨updCell ws ((i : Int) + 2) ((c : Int) + 1) data,
                [((i : Int) + 2, (c : Int) + 1, data)], false, false⟩
      ∧ Metadata.write ws df key data run nk true
        = some ⟨updCell ws ((i : Int) + 2) ((c : Int) + 1) data,
                [((i : Int) + 2, (c : Int) + 1, data)], false, false⟩) := by
  have hbe : (ws ((i : Int) + 2) ((c : Int) + 1) == "") = false :=
    beq_eq_false_iff_ne.mpr hne
  refine ⟨⟨?_, ?_⟩, ?_, ?_⟩ <;>
    simp [Shotsheet.write, Metadata.write, writeCol, hrow, hcol, hbe]

/-- Raw dataframe used by the write-engine examples: one data row for
run 1. -/
def wdf : Frame := ⟨["run_number", "temp"], [[Cell.n 1, Cell.s "a"]]⟩

/-- Worksheet whose `temp` cell for the run-1 row already holds `"old"`. -/
def wsBusy : Sheet := fun p q => if p = 2 ∧ q = 2 then "old" else ""

/-- C2 witness: with `overwrite=False` the busy cell survives and only the
conflict is reported. -/
theorem write_conflict_policy_witness :
    Shotsheet.write wsBusy wdf "temp" "x" 1 false false = some ⟨wsBusy, [], true, false⟩ :=
  ((write_conflict_policy wsBusy wdf "temp" "x" 1 0 1 false (by decide) (by decide)
      (by decide)).1).1

/-- Worksheet holding `"junk"` at the cell Metadata's row-creation path
targets for run 7 (`row+2 = 9`, run-number column 1). -/
def wsJunk : Sheet := fun p q => if p = 9 ∧ q = 1 then "junk" else ""

/-- C2 counterexample: `Metadata.write` with `overwrite=False` on a run
absent from the cached frame overwrites the non-empty run-number cell
unconditionally, so "no operation overwrites a non-empty cell unless
overwrite=true" fails on the code. -/
theorem metadata_write_clobber_cex :
    wsJunk 9 1 = "junk"
      ∧ (Metadata.write wsJunk wdf "temp" "x" 7 false false).map (fun r => r.sheet 9 1)
          = some "7" := by
  constructor
  · decide
  · decide

/-- C7: `write` with `new_key=True` on a field whose column is absent makes
exactly two cell writes -- the field name into header row 1 at the next
free column and the value into the resolved row's cell in that column --
and changes no other cell; with `new_key=False` it makes no write and
reports the missing key. -/
theorem write_new_field (ws : Sheet) (df : Frame) (key data : String) (run : Int)
    (i : Nat) (ov : Bool)
    (hrow : df.findRun run = some i)
    (hcol : df.cols.findIdx? (fun s => s == key) = none) :
    (Shotsheet.write ws df key data run true ov
        = some ⟨updCell (updCell ws 1 ((df.cols.length : Int) + 1) key)
                  ((i : Int) + 2) ((df.cols.length : Int) + 1) data,
                [(1, (df.cols.length : Int) + 1, key),
                 ((i : Int) + 2, (df.cols.length : Int) + 1, data)], false, false⟩)
    ∧ (Shotsheet.write ws df key data run false ov = some ⟨ws, [], false, true⟩)
    ∧ (∀ p q : Int, ¬(p = 1 ∧ q = (df.cols.length : Int) + 1) →
        ¬(p = (i : Int) + 2 ∧ q = (df.cols.length : Int) + 1) →
        (Shotsheet.write ws df key data run true ov).map (fun r => r.sheet p q)
          = some (ws p q)) := by
  refine ⟨?_, ?_, ?_⟩
  · simp [Shotsheet.write, writeCol, hrow, hcol]
  · simp [Shotsheet.write, writeCol, hrow, hcol]
  · intro p q h1 h2
    simp [Shotsheet.write, writeCol, updCell, hrow, hcol, h1, h2]

/-- C7 witness: a missing field with `new_key=False` writes nothing and
reports the missing key. -/
theorem write_new_field_witness :
    Shotsheet.write wsBusy wdf "newfield" "v" 1 false false = some ⟨wsBusy, [], false, true⟩ :=
  (write_new_field wsBusy wdf "newfield" "v" 1 0 false (by decide) (by decide)).2.1

/-- Decimal digit value of a character. -/
def digitVal (c : Char) : Option Nat :=
  if c.isDigit then some (c.toNat - '0'.toNat) else none

/-- Accumulating decimal parser over characters. -/
def digitsToNatAux : List Char → Nat → Option Nat
  | [], acc => some acc
  | c :: cs, acc =>
    match digitVal c with
    | some d => digitsToNatAux cs (acc * 10 + d)
    | none => none

/-- Parse a non-empty all-digit character list as a natural number. -/
def parseNatChars : List Char → Option Nat
  | [] => none
  | c :: cs => digitsToNatAux (c :: cs) 0

/-- Split a character list on a separator (like Python's `str.split`). -/
def splitOnChar (sep : Char) : List Char → List (List Char)
  | [] => [[]]
  | c :: cs =>
    let rest := splitOnChar sep cs
    if c == sep then [] :: rest
    else
      match rest with
      | r :: rs => (c :: r) :: rs
      | [] => [[c]]

/-- A calendar day, the result of `pd.to_datetime(-, format='%m/%d/%Y')`. -/
structure Date where
  year : Nat
  month : Nat
  day : Nat
deriving DecidableEq

/-- Chronological order on days (valid dates compare like datetimes). -/
def Date.le (a b : Date) : Bool :=
  a.year < b.year || (a.year == b.year &&
    (a.month < b.month || (a.month == b.month && a.day ≤ b.day)))

/-- A time of day, the result of `pd.to_datetime(-, format='%H:%M').time()`. -/
structure Tod where
  hour : Nat
  minute : Nat
deriving DecidableEq

/-- Chronological order on times of day. -/
def Tod.le (a b : Tod) : Bool :=
  a.hour < b.hour || (a.hour == b.hour && a.minute ≤ b.minute)

/-- Strict chronological order on times of day. -/
def Tod.lt (a b : Tod) : Bool :=
  a.hour < b.hour || (a.hour == b.hour && a.minute < b.minute)

/-- `pd.to_datetime(s, format='%m/%d/%Y')`: month/day/year separated by `/`,
with the basic range checks the library performs. -/
def parseDate (s : String) : Option Date :=
  match splitOnChar '/' s.data with
  | [m, d, y] =>
    match parseNatChars m, parseNatChars d, parseNatChars y with
    | some mv, some dv, some yv =>
      if 1 ≤ mv ∧ mv ≤ 12 ∧ 1 ≤ dv ∧ dv ≤ 31 then some ⟨yv, mv, dv⟩ else none
    | _, _, _ => none
  | _ => none

/-- `pd.to_datetime(s, format='%H:%M').time()`. -/
def parseTod (s : String) : Option Tod :=
  match splitOnChar ':' s.data with
  | [h, m] =>
    match parseNatChars h, parseNatChars m with
    | some hv, some mv => if hv ≤ 23 ∧ mv ≤ 59 then some ⟨hv, mv⟩ else none
    | _, _ => none
  | _ => none

/-- One clean row as the filter engine sees it: `run_number` plus typed
cells (`get_all_records` returns strings or numbers). -/
structure QRow where
  run : Int
  cells : List (String × Cell)
deriving DecidableEq

/-- `df[key]` for one row. -/
def rowCell (r : QRow) (key : String) : Option Cell := r.cells.lookup key

/-- A filter-dictionary scalar: a string, a number, or an already-built
datetime/time object. -/
inductive FilterVal where
  | s (v : String)
  | n (v : Int)
  | d (v : Date)
  | t (v : Tod)
deriving DecidableEq

/-- One filter-dictionary value: an exact scalar, a list of scalars, or a
`slice(lo, hi)` range. -/
inductive Criterion where
  | exact (v : FilterVal)
  | vals (vs : List FilterVal)
  | range (lo hi : FilterVal)
deriving DecidableEq

/-- Lexicographic (code-point) order on character lists, as Python compares
strings. -/
def charListLt : List Char → List Char → Bool
  | [], [] => false
  | [], _ :: _ => true
  | _ :: _, [] => false
  | a :: as, b :: bs => a < b || (a == b && charListLt as bs)

/-- `a <= b` on strings. -/
def strLeB (a b : String) : Bool := charListLt a.data b.data || a == b

/-- Elementwise `bound <= cell`: defined for same-kind scalar comparisons,
`none` where pandas would raise a `TypeError`. -/
def fvLeCell : FilterVal → Cell → Option Bool
  | .n a, .n b => some (a ≤ b)
  | .s a, .s b => some (strLeB a b)
  | _, _ => none

/-- Elementwise `cell <= bound`. -/
def cellLeFv : Cell → FilterVal → Option Bool
  | .n a, .n b => some (a ≤ b)
  | .s a, .s b => some (strLeB a b)
  | _, _ => none

/-- Elementwise `df[key] == value`: mismatched kinds compare unequal, as in
pandas. -/
def fvEqCell (v : FilterVal) (c : Cell) : Bool :=
  match v, c with
  | .n a, .n b => a == b
  | .s a, .s b => a == b
  | _, _ => false

/-- The boolean mask entry of `(df[key] >= lo) & (df[key] <= hi)` for one
row: `none` when the row lacks the column or a comparison is unsupported. -/
def rangeFlag (key : String) (lo hi : FilterVal) (r : QRow) : Option Bool :=
  match rowCell r key with
  | some cv =>
    match fvLeCell lo cv, cellLeFv cv hi with
    | some b1, some b2 => some (b1 && b2)
    | _, _ => none
  | none => none

/-- The parsed `Date` column entry of one row
(`pd.to_datetime(df['Date'], format='%m/%d/%Y')`). -/
def dateOf (r : QRow) : Option Date :=
  match rowCell r "Date" with
  | some (Cell.s str) => parseDate str
  | _ => none

/-- The parsed `Time` column entry of one row. -/
def todOf (r : QRow) : Option Tod :=
  match rowCell r "Time" with
  | some (Cell.s str) => parseTod str
  | _ => none

/-- Elementwise evaluation of a whole column, failing when any row fails
(as a pandas column conversion or comparison does). -/
def mapOpt {α β : Type} (f : α → Option β) : List α → Option (List β)
  | [] => some []
  | a :: l => (f a).bind (fun b => (mapOpt f l).map (fun bs => b :: bs))

/-- The general (non-`Date`/`Time`) branch of the filter loop of
`Shotsheet.get_all`. -/
def genericFilter (rows : List QRow) (key : String) (c : Criterion) :
    Option (List QRow) :=
  match c with
  | .range lo hi =>
    match mapOpt (fun r => (rangeFlag key lo hi r).map (fun b => (r, b))) rows with
    | some flagged => some ((flagged.filter (fun p => p.2)).map (fun p => p.1))
    | none => none
  | .exact v =>
    match mapOpt (fun r => (rowCell r key).map (fun cv => (r, cv))) rows with
    | some withCell =>
      some ((withCell.filter (fun p => fvEqCell v p.2)).map (fun p => p.1))
    | none => none
  | .vals vs =>
    match mapOpt (fun r => (rowCell r key).map (fun cv => (r, cv))) rows with
    | some withCell =>
      some ((withCell.filter (fun p => vs.any (fun v => fvEqCell v p.2))).map (fun p => p.1))
    | none => none

/-- The `Date` branch: parse the column from `%m/%d/%Y`, then narrow by the
criterion; ranges are inclusive at both ends
(`(df['Date'] >= start) & (df['Date'] <= stop)`). -/
def dateFilter (rows : List QRow) (c : Criterion) : Option (List QRow) :=
  match mapOpt (fun r => (dateOf r).map (fun dtv => (r, dtv))) rows with
  | none => none
  | some parsed =>
    match c with
    | .range (FilterVal.d dlo) (FilterVal.d dhi) =>
      some ((parsed.filter (fun p => Date.le dlo p.2 && Date.le p.2 dhi)).map (fun p => p.1))
    | .range _ _ => none
    | .exact (FilterVal.s str) =>
      match parseDate str with
      | some dv => some ((parsed.filter (fun p => p.2 == dv)).map (fun p => p.1))
      | none => none
    | .exact _ => none
    | .vals vs =>
      match mapOpt (fun v => match v with | FilterVal.s str => parseDate str | _ => none) vs with
      | some dvs => some ((parsed.filter (fun p => dvs.contains p.2)).map (fun p => p.1))
      | none => none

/-- The `Time` branch: parse the column from `%H:%M`, then narrow; ranges
are inclusive below and exclusive above
(`(df['Time'] >= start) & (df['Time'] < stop)`). -/
def timeFilter (rows : List QRow) (c : Criterion) : Option (List QRow) :=
  match mapOpt (fun r => (todOf r).map (fun tv => (r, tv))) rows with
  | none => none
  | some parsed =>
    match c with
    | .range (FilterVal.t tlo) (FilterVal.t thi) =>
      some ((parsed.filter (fun p => Tod.le tlo p.2 && Tod.lt p.2 thi)).map (fun p => p.1))
    | .range _ _ => none
    | .exact (FilterVal.s str) =>
      match parseTod str with
      | some tv => some ((parsed.filter (fun p => p.2 == tv)).map (fun p => p.1))
      | none => none
    | .exact _ => none
    | .vals vs =>
      match mapOpt (fun v => match v with | FilterVal.s str => parseTod str | _ => none) vs with
      | some tvs => some ((parsed.filter (fun p => tvs.contains p.2)).map (fun p => p.1))
      | none => none

/-- One iteration of the filter loop of `Shotsheet.get_all`: dispatch on the
key name as the `if key == "Time" / elif key == "Date" / else` chain does;
the `DateTime` key is skipped by the loop (`if key != "DateTime"`). -/
def applyFilterEntry (rows : List QRow) (key : String) (c : Criterion) :
    Option (List QRow) :=
  if key == "Time" then timeFilter rows c
  else if key == "Date" then dateFilter rows c
  else if key == "DateTime" then some rows
  else genericFilter rows key c

theorem mapOpt_mem {α β : Type} (f : α → Option β) :
    ∀ (l : List α) (l' : List β), mapOpt f l = some l' →
      ∀ b, b ∈ l' ↔ ∃ a, a ∈ l ∧ f a = some b := by
  intro l
  induction l with
  | nil =>
    intro l' h b
    simp only [mapOpt, Option.some.injEq] at h
    subst h
    simp
  | cons a as ih =>
    intro l' h b
    unfold mapOpt at h
    cases hfa : f a with
    | none => rw [hfa] at h; simp at h
    | some b0 =>
      rw [hfa] at h
      cases hrest : mapOpt f as with
      | none => rw [hrest] at h; simp at h
      | some bs =>
        rw [hrest] at h
        have h' : b0 :: bs = l' := by simpa using h
        subst h'
        constructor
        · intro hb
          rcases List.mem_cons.mp hb with hb | hb
          · exact ⟨a, by simp, by rw [hfa, hb]⟩
          · obtain ⟨x, hx, hfx⟩ := (ih bs hrest b).mp hb
            exact ⟨x, by simp [hx], hfx⟩
        · rintro ⟨x, hx, hfx⟩
          rcases List.mem_cons.mp hx with hx | hx
          · subst hx
            rw [hfa] at hfx
            simp only [Option.some.injEq] at hfx
            simp [hfx]
          · exact List.mem_cons.mpr (Or.inr ((ih bs hrest b).mpr ⟨x, hx, hfx⟩))

theorem filterMapPair_mem {α β : Type} (rows : List α) (parsed : List (α × β))
    (g : α → Option β) (pred : α × β → Bool)
    (hp : mapOpt (fun a => (g a).map (fun b => (a, b))) rows = some parsed) :
    ∀ r, r ∈ (parsed.filter pred).map (fun p => p.1) ↔
      r ∈ rows ∧ ∃ b, g r = some b ∧ pred (r, b) = true := by
  intro r
  constructor
  · intro hr
    obtain ⟨p, hpmem, hp1⟩ := List.mem_map.mp hr
    have hpf := List.mem_filter.mp hpmem
    obtain ⟨a, ha, hfa⟩ := (mapOpt_mem _ rows parsed hp p).mp hpf.1
    cases hga : g a with
    | none => rw [hga] at hfa; simp at hfa
    | some b =>
      rw [hga] at hfa
      simp only [Option.map_some', Option.some.injEq] at hfa
      have har : a = r := by rw [← hfa] at hp1; simpa using hp1
      subst har
      refine ⟨ha, b, hga, ?_⟩
      rw [hfa]
      exact hpf.2
  · rintro ⟨hr, b, hgb, hpred⟩
    apply List.mem_map.mpr
    refine ⟨(r, b), ?_, rfl⟩
    apply List.mem_filter.mpr
    refine ⟨?_, hpred⟩
    apply (mapOpt_mem _ rows parsed hp (r, b)).mpr
    exact ⟨r, hr, by rw [hgb]; rfl⟩

theorem rangeFlag_num_true (key : String) (lo hi : Int) (r : QRow) :
    ∀ b, rangeFlag key (FilterVal.n lo) (FilterVal.n hi) r = some b →
      (b = true ↔ ∃ v : Int, rowCell r key = some (Cell.n v) ∧ lo ≤ v ∧ v ≤ hi) := by
  intro b hb
  unfold rangeFlag at hb
  cases hcell : rowCell r key with
  | none => rw [hcell] at hb; simp at hb
  | some cv =>
    rw [hcell] at hb
    cases cv with
    | s sv => simp [fvLeCell] at hb
    | n nv =>
      simp only [fvLeCell, cellLeFv, Option.some.injEq] at hb
      subst hb
      constructor
      · intro htrue
        refine ⟨nv, rfl, ?_⟩
        simpa using htrue
      · rintro ⟨v, hv, hlo, hhi⟩
        simp only [Option.some.injEq, Cell.n.injEq] at hv
        subst hv
        simp [hlo, hhi]

/-- C8: one filter entry of `get_all` keeps, for a range criterion on a
generic (numeric) field, exactly the rows with `lo <= value <= hi`; for a
range on the `Date` field, exactly the rows whose parsed date lies in the
inclusive-inclusive range; for a range on the `Time` field, exactly the rows
with `lo <= value < hi` (inclusive-exclusive); and for an exact `Date`
criterion, exactly the rows whose date parsed from `MM/DD/YYYY` equals the
parse of the given day. -/
theorem get_all_filter_semantics :
    (∀ (rows : List QRow) (key : String) (lo hi : Int) (out : List QRow),
        key ≠ "Time" → key ≠ "Date" → key ≠ "DateTime" →
        applyFilterEntry rows key (Criterion.range (FilterVal.n lo) (FilterVal.n hi))
          = some out →
        ∀ r, r ∈ out ↔ r ∈ rows ∧ ∃ v : Int,
          rowCell r key = some (Cell.n v) ∧ lo ≤ v ∧ v ≤ hi)
    ∧ (∀ (rows : List QRow) (lo hi : Date) (out : List QRow),
        applyFilterEntry rows "Date" (Criterion.range (FilterVal.d lo) (FilterVal.d hi))
          = some out →
        ∀ r, r ∈ out ↔ r ∈ rows ∧ ∃ dt,
          dateOf r = some dt ∧ Date.le lo dt = true ∧ Date.le dt hi = true)
    ∧ (∀ (rows : List QRow) (lo hi : Tod) (out : List QRow),
        applyFilterEntry rows "Time" (Criterion.range (FilterVal.t lo) (FilterVal.t hi))
          = some out →
        ∀ r, r ∈ out ↔ r ∈ rows ∧ ∃ t,
          todOf r = some t ∧ Tod.le lo t = true ∧ Tod.lt t hi = true)
    ∧ (∀ (rows : List QRow) (ds : String) (dv : Date) (out : List QRow),
        parseDate ds = some dv →
        applyFilterEntry rows "Date" (Criterion.exact (FilterVal.s ds)) = some out →
        ∀ r, r ∈ out ↔ r ∈ rows ∧ dateOf r = some dv) := by
  refine ⟨?_, ?_, ?_, ?_⟩
  · intro rows key lo hi out hT hD hDT hout
    have hbT : (key == "Time") = false := beq_eq_false_iff_ne.mpr hT
    have hbD : (key == "Date") = false := beq_eq_false_iff_ne.mpr hD
    have hbDT : (key == "DateTime") = false := beq_eq_false_iff_ne.mpr hDT
    unfold applyFilterEntry at hout
    rw [if_neg (by simp [hbT]), if_neg (by simp [hbD]), if_neg (by simp [hbDT])] at hout
    unfold genericFilter at hout
    have hout2 : (match mapOpt
          (fun r => (rangeFlag key (FilterVal.n lo) (FilterVal.n hi) r).map (fun b => (r, b)))
          rows with
        | some flagged => some ((flagged.filter (fun p => p.2)).map (fun p => p.1))
        | none => none) = some out := hout
    cases hm : mapOpt
        (fun r => (rangeFlag key (FilterVal.n lo) (FilterVal.n hi) r).map (fun b => (r, b)))
        rows with
    | none => rw [hm] at hout2; simp at hout2
    | some flagged =>
      rw [hm] at hout2
      simp only [Option.some.injEq] at hout2
      subst hout2
      intro r
      rw [filterMapPair_mem rows flagged _ _ hm r]
      constructor
      · rintro ⟨hr, b, hgb, hpred⟩
        exact ⟨hr, (rangeFlag_num_true key lo hi r b hgb).mp (by simpa using hpred)⟩
      · rintro ⟨hr, v, hv, hlo, hhi⟩
        refine ⟨hr, true, ?_, rfl⟩
        have hflag : rangeFlag key (FilterVal.n lo) (FilterVal.n hi) r
            = some (decide (lo ≤ v) && decide (v ≤ hi)) := by
          unfold rangeFlag
          rw [hv]
          rfl
        rw [hflag]
        simp [hlo, hhi]
  · intro rows lo hi out hout
    unfold applyFilterEntry at hout
    rw [if_neg (by decide), if_pos (by decide)] at hout
    unfold dateFilter at hout
    cases hm : mapOpt (fun r => (dateOf r).map (fun dtv => (r, dtv))) rows with
    | none => rw [hm] at hout; simp at hout
    | some parsed =>
      rw [hm] at hout
      simp only [Option.some.injEq] at hout
      subst hout
      intro r
      rw [filterMapPair_mem rows parsed _ _ hm r]
      constructor
      · rintro ⟨hr, dt, hdt, hb⟩
        rw [Bool.and_eq_true] at hb
        exact ⟨hr, dt, hdt, hb.1, hb.2⟩
      · rintro ⟨hr, dt, hdt, h1, h2⟩
        exact ⟨hr, dt, hdt, by simp [h1, h2]⟩
  · intro rows lo hi out hout
    unfold applyFilterEntry at hout
    rw [if_pos (by decide)] at hout
    unfold timeFilter at hout
    cases hm : mapOpt (fun r => (todOf r).map (fun tv => (r, tv))) rows with
    | none => rw [hm] at hout; simp at hout
    | some parsed =>
      rw [hm] at hout
      simp only [Option.some.injEq] at hout
      subst hout
      intro r
      rw [filterMapPair_mem rows parsed _ _ hm r]
      constructor
      · rintro ⟨hr, t, ht, hb⟩
        rw [Bool.and_eq_true] at hb
        exact ⟨hr, t, ht, hb.1, hb.2⟩
      · rintro ⟨hr, t, ht, h1, h2⟩
        exact ⟨hr, t, ht, by simp [h1, h2]⟩
  · intro rows ds dv out hparse hout
    unfold applyFilterEntry at hout
    rw [if_neg (by decide), if_pos (by decide)] at hout
    unfold dateFilter at hout
    cases hm : mapOpt (fun r => (dateOf r).map (fun dtv => (r, dtv))) rows with
    | none => rw [hm] at hout; simp at hout
    | some parsed =>
      rw [hm] at hout
      have hout2 : (match parseDate ds with
          | some dv2 => some ((parsed.filter (fun p => p.2 == dv2)).map (fun p => p.1))
          | none => none) = some out := hout
      rw [hparse] at hout2
      simp only [Option.some.injEq] at hout2
      subst hout2
      intro r
      rw [filterMapPair_mem rows parsed _ _ hm r]
      constructor
      · rintro ⟨hr, dt, hdt, hb⟩
        have hdd : dt = dv := by simpa using hb
        rw [hdd] at hdt
        exact ⟨hr, hdt⟩
      · rintro ⟨hr, hdv⟩
        exact ⟨hr, dv, hdv, by simp⟩

/-- A row inside the numeric range 10..20. -/
def q8row1 : QRow := ⟨1, [("value", Cell.n 15), ("Date", Cell.s "10/02/2024")]⟩

/-- A row outside the numeric range 10..20. -/
def q8row2 : QRow := ⟨2, [("value", Cell.n 25), ("Date", Cell.s "10/03/2024")]⟩

/-- The two-row clean set used by the filter witness. -/
def q8rows : List QRow := [q8row1, q8row2]

/-- C8 witness: the range filter `{"value": slice(10, 20)}` keeps exactly
the row whose value 15 satisfies `10 <= value <= 20`. -/
theorem get_all_filter_semantics_witness :
    q8row1 ∈ [q8row1] ↔ q8row1 ∈ q8rows ∧ ∃ v : Int,
      rowCell q8row1 "value" = some (Cell.n v) ∧ 10 ≤ v ∧ v ≤ 20 :=
  get_all_filter_semantics.1 q8rows "value" 10 20 [q8row1] (by decide) (by decide)
    (by decide) (by decide) q8row1
